import Mathlib

/-!
Verification development for the PROVERBS-ONE-A repository.

The repository's core is a geospatial proximity search over a small registry
of geo-located agents (the "NPS locator"): haversine distance from a query
point to every registered agent, a radius filter, and a deterministic
distance-ordered result.  The concrete locator module
(modules/nps_geospatial_locator.py) is not present in the repository snapshot;
only its caller (main_app.py) is.  The Registry / ProximitySearch component is
therefore modelled from the specification, and the caller-side control flow
(run_nps_locator_test, main_app_router, the __main__ guard) is embedded
directly from main_app.py.
-/

noncomputable section

/-! ## Data model (modelled from the spec) -/

/-- Modelled from the spec: a Coordinate is a latitude/longitude pair in
degrees (the concrete locator module is missing from the snapshot). -/
structure Coordinate where
  latitude : ℝ
  longitude : ℝ
deriving DecidableEq

/-- Modelled from the spec: latitude must lie in [-90, 90] and longitude in
[-180, 180]; reals carry no NaN, so finiteness is automatic here. -/
def Coordinate.valid (c : Coordinate) : Prop :=
  -90 ≤ c.latitude ∧ c.latitude ≤ 90 ∧ -180 ≤ c.longitude ∧ c.longitude ≤ 180

instance : DecidablePred Coordinate.valid := by
  unfold Coordinate.valid
  infer_instance

/-- Modelled from the spec: an agent record with identifier, display name and
an immutable coordinate. -/
structure AgentRecord where
  id : String
  name : String
  coordinate : Coordinate

/-- Modelled from the spec: an ordered collection of agent records. -/
structure Registry where
  records : List AgentRecord

/-- Modelled from the spec: registry-load failure for malformed static data. -/
inductive LoadError where
  | ValidationError
deriving DecidableEq

/-- Modelled from the spec: query-time failure for an out-of-contract query. -/
inductive QueryError where
  | InvalidQueryError
deriving DecidableEq

/-- Modelled from the spec: a query result exposing id, name, latitude,
longitude and the computed distance. -/
structure QueryResult where
  id : String
  name : String
  latitude : ℝ
  longitude : ℝ
  distance : ℝ

/-! ## Registry loading (modelled from the spec) -/

/-- Modelled from the spec: `load` fails with `ValidationError` if any record
has invalid coordinates or a duplicate id, and otherwise constructs the
registry preserving the given order. -/
def Registry.load (records : List AgentRecord) : Except LoadError Registry :=
  if (∀ r ∈ records, r.coordinate.valid) ∧ (records.map AgentRecord.id).Nodup then
    Except.ok ⟨records⟩
  else
    Except.error LoadError.ValidationError

/-- Spec §4.1: `allRecords` returns the stable insertion-order snapshot. -/
def Registry.allRecords (reg : Registry) : List AgentRecord :=
  reg.records

/-! ## Haversine distance (modelled from the spec) -/

/-- Modelled from the spec: the fixed mean Earth radius constant, in miles. -/
def earthRadiusMiles : ℝ := 3958.8

/-- Degrees to radians. -/
def deg2rad (d : ℝ) : ℝ := d * Real.pi / 180

/-- The haversine of an angle: sin^2 of half the angle. -/
def hav (x : ℝ) : ℝ := Real.sin (x / 2) ^ 2

/-- Modelled from the spec: great-circle distance between two coordinates by
the haversine formula on the fixed mean Earth radius, in miles. -/
def haversine (a b : Coordinate) : ℝ :=
  2 * earthRadiusMiles * Real.arcsin (Real.sqrt
    (hav (deg2rad b.latitude - deg2rad a.latitude) +
      Real.cos (deg2rad a.latitude) * Real.cos (deg2rad b.latitude) *
        hav (deg2rad b.longitude - deg2rad a.longitude)))

/-! ## Proximity search (modelled from the spec) -/

/-- Modelled from the spec: annotate one registry record with its computed
distance from the query point, exposing the response tuple fields. -/
def toQueryResult (query : Coordinate) (r : AgentRecord) : QueryResult :=
  ⟨r.id, r.name, r.coordinate.latitude, r.coordinate.longitude,
    haversine query r.coordinate⟩

/-- Modelled from the spec: the records retained by the radius filter
(inclusive bound), annotated, in registry load order. -/
def retained (query : Coordinate) (maxDistance : ℝ) (reg : Registry) :
    List QueryResult :=
  (reg.records.map (toQueryResult query)).filter
    fun q => decide (q.distance ≤ maxDistance)

/-- Comparison of query results by computed distance. -/
def distLE (u v : QueryResult) : Prop := u.distance ≤ v.distance

instance : DecidableRel distLE := fun u v => Real.decidableLE u.distance v.distance

instance : IsTotal QueryResult distLE := ⟨fun u v => le_total u.distance v.distance⟩

instance : IsTrans QueryResult distLE := ⟨fun _ _ _ h1 h2 => le_trans h1 h2⟩

instance : IsRefl QueryResult distLE := ⟨fun u => le_refl u.distance⟩

/-- Modelled from the spec: `locateNearest` validates the query coordinate and
radius, filters the registry by the inclusive radius bound, and returns the
matches sorted ascending by distance with a stable sort. -/
def locateNearest (query : Coordinate) (maxDistance : ℝ) (reg : Registry) :
    Except QueryError (List QueryResult) :=
  if query.valid ∧ 0 ≤ maxDistance then
    Except.ok ((retained query maxDistance reg).insertionSort distLE)
  else
    Except.error QueryError.InvalidQueryError

/-! ## Analytic helper bounds -/

theorem sin_sq_le_sq_of_nonneg (x : ℝ) (hx : 0 ≤ x) : Real.sin x ^ 2 ≤ x ^ 2 := by
  have h1 : Real.sin x ≤ x := Real.sin_le hx
  rcases le_total x 1 with h | h
  · have h0 : 0 ≤ Real.sin x :=
      Real.sin_nonneg_of_nonneg_of_le_pi hx (by nlinarith [Real.pi_gt_three])
    nlinarith
  · have h2 : -1 ≤ Real.sin x := Real.neg_one_le_sin x
    nlinarith

theorem sin_sq_le_sq (x : ℝ) : Real.sin x ^ 2 ≤ x ^ 2 := by
  rcases le_total 0 x with h | h
  · exact sin_sq_le_sq_of_nonneg x h
  · have h2 := sin_sq_le_sq_of_nonneg (-x) (by linarith)
    rw [Real.sin_neg, neg_sq, neg_sq] at h2
    exact h2

theorem hav_nonneg (x : ℝ) : 0 ≤ hav x := sq_nonneg _

theorem hav_le_half_sq (x : ℝ) : hav x ≤ (x / 2) ^ 2 := sin_sq_le_sq (x / 2)

theorem cos_mul_cos_le_one (a b : ℝ) : Real.cos a * Real.cos b ≤ 1 := by
  nlinarith [Real.neg_one_le_cos a, Real.cos_le_one a, Real.neg_one_le_cos b,
    Real.cos_le_one b]

theorem cos_deg2rad_nonneg (d : ℝ) (h1 : -90 ≤ d) (h2 : d ≤ 90) :
    0 ≤ Real.cos (deg2rad d) := by
  refine Real.cos_nonneg_of_mem_Icc (Set.mem_Icc.mpr ⟨?_, ?_⟩)
  · unfold deg2rad
    nlinarith [Real.pi_pos, mul_nonneg (by linarith : (0:ℝ) ≤ d + 90) Real.pi_pos.le]
  · unfold deg2rad
    nlinarith [Real.pi_pos, mul_nonneg (by linarith : (0:ℝ) ≤ 90 - d) Real.pi_pos.le]

theorem le_arcsin_self (c : ℝ) (h0 : 0 ≤ c) (h1 : c ≤ 1) : c ≤ Real.arcsin c := by
  have hs : Real.sin (Real.arcsin c) = c := Real.sin_arcsin (by linarith) h1
  have hn : 0 ≤ Real.arcsin c := Real.arcsin_nonneg.mpr h0
  have hle := Real.sin_le hn
  rw [hs] at hle
  exact hle

theorem le_arcsin_of_le (c x : ℝ) (h0 : 0 ≤ c) (h1 : c ≤ 1) (hcx : c ≤ x) :
    c ≤ Real.arcsin x := by
  rcases le_total x 1 with hx | hx
  · exact le_trans (le_arcsin_self c h0 h1) (Real.monotone_arcsin hcx)
  · rw [Real.arcsin_of_one_le hx]
    nlinarith [Real.pi_gt_three]

theorem arcsin_le_add_cube (x : ℝ) (h0 : 0 ≤ x) (h1 : x ≤ 1 / 2) :
    Real.arcsin x ≤ x + x ^ 3 := by
  rcases eq_or_lt_of_le h0 with h | h
  · rw [← h, Real.arcsin_zero]
    norm_num
  · have hx3 : 0 < x ^ 3 := by positivity
    have hx2 : x ^ 2 ≤ 1 / 4 := by nlinarith
    have hcube : x ^ 3 ≤ 1 / 8 := by nlinarith
    have hy1 : x + x ^ 3 ≤ 1 := by linarith
    have hy0 : 0 < x + x ^ 3 := by linarith
    have hsin := Real.sin_gt_sub_cube hy0 hy1
    have h5 : x ^ 5 ≤ x ^ 3 / 4 := by
      have hm := mul_le_mul_of_nonneg_left hx2 (le_of_lt hx3)
      nlinarith [hm]
    have h7 : x ^ 7 ≤ x ^ 5 / 4 := by
      have hm := mul_le_mul_of_nonneg_left hx2 (le_of_lt (pow_pos h 5))
      nlinarith [hm]
    have h9 : x ^ 9 ≤ x ^ 7 / 4 := by
      have hm := mul_le_mul_of_nonneg_left hx2 (le_of_lt (pow_pos h 7))
      nlinarith [hm]
    have hkey : x ≤ (x + x ^ 3) - (x + x ^ 3) ^ 3 / 4 := by nlinarith [h5, h7, h9]
    have hxs : x ≤ Real.sin (x + x ^ 3) := by linarith
    have hmem : x + x ^ 3 ∈ Set.Icc (-(Real.pi / 2)) (Real.pi / 2) := by
      refine Set.mem_Icc.mpr ⟨?_, ?_⟩
      · nlinarith [Real.pi_gt_three]
      · nlinarith [Real.pi_gt_three]
    exact (Real.arcsin_le_iff_le_sin
      (Set.mem_Icc.mpr ⟨by linarith, by linarith⟩) hmem).mpr hxs

theorem sin_sq_ge_bracket (y c l u : ℝ) (hc : 0 ≤ c) (hl0 : 0 < l) (hu1 : u ≤ 1)
    (hl : l ≤ y) (hu : y ≤ u) (h : c ≤ l - u ^ 3 / 4) : c ^ 2 ≤ Real.sin y ^ 2 := by
  have hy0 : 0 < y := lt_of_lt_of_le hl0 hl
  have hy1 : y ≤ 1 := le_trans hu hu1
  have hs := Real.sin_gt_sub_cube hy0 hy1
  have hy3 : y ^ 3 ≤ u ^ 3 := pow_le_pow_left₀ (le_of_lt hy0) hu 3
  have hsc : c ≤ Real.sin y := by linarith
  nlinarith [hsc, hc]

/-! ## General haversine bounds -/

theorem haversine_nonneg (a b : Coordinate) : 0 ≤ haversine a b := by
  unfold haversine
  have h1 := Real.arcsin_nonneg.mpr (Real.sqrt_nonneg
    (hav (deg2rad b.latitude - deg2rad a.latitude) +
      Real.cos (deg2rad a.latitude) * Real.cos (deg2rad b.latitude) *
        hav (deg2rad b.longitude - deg2rad a.longitude)))
  have h2 : (0:ℝ) ≤ 2 * earthRadiusMiles := by norm_num [earthRadiusMiles]
  exact mul_nonneg h2 h1

theorem haversine_self (c : Coordinate) : haversine c c = 0 := by
  unfold haversine hav
  simp

theorem haversine_le (a b : Coordinate) (s : ℝ) (hs0 : 0 ≤ s) (hs2 : s ≤ 1 / 2)
    (hh : hav (deg2rad b.latitude - deg2rad a.latitude) +
        Real.cos (deg2rad a.latitude) * Real.cos (deg2rad b.latitude) *
          hav (deg2rad b.longitude - deg2rad a.longitude) ≤ s ^ 2) :
    haversine a b ≤ 2 * earthRadiusMiles * (s + s ^ 3) := by
  unfold haversine
  set h := hav (deg2rad b.latitude - deg2rad a.latitude) +
      Real.cos (deg2rad a.latitude) * Real.cos (deg2rad b.latitude) *
        hav (deg2rad b.longitude - deg2rad a.longitude) with hdef
  have hsq : Real.sqrt h ≤ s := Real.sqrt_le_iff.mpr ⟨hs0, hh⟩
  have hsn : 0 ≤ Real.sqrt h := Real.sqrt_nonneg h
  have ha : Real.arcsin (Real.sqrt h) ≤ Real.sqrt h + Real.sqrt h ^ 3 :=
    arcsin_le_add_cube _ hsn (le_trans hsq hs2)
  have hc3 : Real.sqrt h ^ 3 ≤ s ^ 3 := pow_le_pow_left₀ hsn hsq 3
  have hR : (0:ℝ) ≤ 2 * earthRadiusMiles := by norm_num [earthRadiusMiles]
  exact mul_le_mul_of_nonneg_left
    (by linarith : Real.arcsin (Real.sqrt h) ≤ s + s ^ 3) hR

theorem haversine_ge (a b : Coordinate) (c : ℝ) (hc0 : 0 ≤ c) (hc1 : c ≤ 1)
    (hcos : 0 ≤ Real.cos (deg2rad a.latitude) * Real.cos (deg2rad b.latitude))
    (hh : c ^ 2 ≤ hav (deg2rad b.latitude - deg2rad a.latitude)) :
    2 * earthRadiusMiles * c ≤ haversine a b := by
  unfold haversine
  set h := hav (deg2rad b.latitude - deg2rad a.latitude) +
      Real.cos (deg2rad a.latitude) * Real.cos (deg2rad b.latitude) *
        hav (deg2rad b.longitude - deg2rad a.longitude) with hdef
  have hextra : 0 ≤ Real.cos (deg2rad a.latitude) * Real.cos (deg2rad b.latitude) *
      hav (deg2rad b.longitude - deg2rad a.longitude) :=
    mul_nonneg hcos (hav_nonneg _)
  have hge : c ^ 2 ≤ h := by rw [hdef]; linarith
  have h0 : 0 ≤ h := le_trans (sq_nonneg c) hge
  have hsq : c ≤ Real.sqrt h := (Real.le_sqrt hc0 h0).mpr hge
  have ha : c ≤ Real.arcsin (Real.sqrt h) := le_arcsin_of_le c _ hc0 hc1 hsq
  have hR : (0:ℝ) ≤ 2 * earthRadiusMiles := by norm_num [earthRadiusMiles]
  exact mul_le_mul_of_nonneg_left ha hR

theorem inner_le_of_sq (a b : Coordinate) (s : ℝ)
    (h6 : ((deg2rad b.latitude - deg2rad a.latitude) / 2) ^ 2 +
      ((deg2rad b.longitude - deg2rad a.longitude) / 2) ^ 2 ≤ s ^ 2) :
    hav (deg2rad b.latitude - deg2rad a.latitude) +
      Real.cos (deg2rad a.latitude) * Real.cos (deg2rad b.latitude) *
        hav (deg2rad b.longitude - deg2rad a.longitude) ≤ s ^ 2 := by
  have h1 := hav_le_half_sq (deg2rad b.latitude - deg2rad a.latitude)
  have h2 := hav_le_half_sq (deg2rad b.longitude - deg2rad a.longitude)
  have h4 := hav_nonneg (deg2rad b.longitude - deg2rad a.longitude)
  have h5 := mul_le_of_le_one_left h4
    (cos_mul_cos_le_one (deg2rad a.latitude) (deg2rad b.latitude))
  linarith

theorem hav_ge_bracket (x c l u : ℝ) (hc : 0 ≤ c) (hl0 : 0 < l) (hu1 : u ≤ 1)
    (hl : l ≤ x / 2) (hu : x / 2 ≤ u) (h : c ≤ l - u ^ 3 / 4) : c ^ 2 ≤ hav x := by
  unfold hav
  exact sin_sq_ge_bracket (x / 2) c l u hc hl0 hu1 hl hu h

/-! ## Concrete scenario fixtures (spec section 8) -/

/-- The spec's concrete-scenario query point near Washington D.C. -/
def dcQuery : Coordinate := ⟨38.897, -77.036⟩

/-- Scenario agent A at (38.9000, -77.0300). -/
def agentA : AgentRecord := ⟨"A", "Agent A", ⟨38.9, -77.03⟩⟩

/-- Scenario agent B at (38.9100, -77.0400). -/
def agentB : AgentRecord := ⟨"B", "Agent B", ⟨38.91, -77.04⟩⟩

/-- Scenario agent C at (40.7128, -74.0060), New York. -/
def agentC : AgentRecord := ⟨"C", "Agent C", ⟨40.7128, -74.006⟩⟩

/-- The scenario registry holding A, B, C in load order. -/
def regABC : Registry := ⟨[agentA, agentB, agentC]⟩

theorem toQueryResult_distance (q : Coordinate) (r : AgentRecord) :
    (toQueryResult q r).distance = haversine q r.coordinate := rfl

theorem pi_sq_le : Real.pi ^ 2 ≤ 9.8697 := by
  nlinarith [Real.pi_lt_d4, Real.pi_pos]

theorem distA_le : haversine dcQuery agentA.coordinate ≤ 0.4636 := by
  have h6 : ((deg2rad agentA.coordinate.latitude - deg2rad dcQuery.latitude) / 2) ^ 2 +
      ((deg2rad agentA.coordinate.longitude - deg2rad dcQuery.longitude) / 2) ^ 2 ≤
      (0.00005855:ℝ) ^ 2 := by
    simp only [agentA, dcQuery, deg2rad]
    nlinarith [pi_sq_le, Real.pi_pos]
  have hb := haversine_le dcQuery agentA.coordinate 0.00005855 (by norm_num)
    (by norm_num) (inner_le_of_sq dcQuery agentA.coordinate _ h6)
  have hn : 2 * earthRadiusMiles * ((0.00005855:ℝ) + 0.00005855 ^ 3) ≤ 0.4636 := by
    norm_num [earthRadiusMiles]
  linarith

theorem distB_le : haversine dcQuery agentB.coordinate ≤ 0.94 := by
  have h6 : ((deg2rad agentB.coordinate.latitude - deg2rad dcQuery.latitude) / 2) ^ 2 +
      ((deg2rad agentB.coordinate.longitude - deg2rad dcQuery.longitude) / 2) ^ 2 ≤
      (0.0001187:ℝ) ^ 2 := by
    simp only [agentB, dcQuery, deg2rad]
    nlinarith [pi_sq_le, Real.pi_pos]
  have hb := haversine_le dcQuery agentB.coordinate 0.0001187 (by norm_num)
    (by norm_num) (inner_le_of_sq dcQuery agentB.coordinate _ h6)
  have hn : 2 * earthRadiusMiles * ((0.0001187:ℝ) + 0.0001187 ^ 3) ≤ 0.94 := by
    norm_num [earthRadiusMiles]
  linarith

theorem distB_ge : 0.8981 ≤ haversine dcQuery agentB.coordinate := by
  have hcos : 0 ≤ Real.cos (deg2rad dcQuery.latitude) *
      Real.cos (deg2rad agentB.coordinate.latitude) :=
    mul_nonneg
      (cos_deg2rad_nonneg _ (by norm_num [dcQuery]) (by norm_num [dcQuery]))
      (cos_deg2rad_nonneg _ (by norm_num [agentB]) (by norm_num [agentB]))
  have hh : (0.00011344:ℝ) ^ 2 ≤
      hav (deg2rad agentB.coordinate.latitude - deg2rad dcQuery.latitude) := by
    apply hav_ge_bracket _ _ 0.000113443 0.0001134467 (by norm_num) (by norm_num)
      (by norm_num)
    · simp only [agentB, dcQuery, deg2rad]
      nlinarith [Real.pi_gt_d4]
    · simp only [agentB, dcQuery, deg2rad]
      nlinarith [Real.pi_lt_d4]
    · norm_num
  have hb := haversine_ge dcQuery agentB.coordinate 0.00011344 (by norm_num)
    (by norm_num) hcos hh
  have hn : (0.8981:ℝ) ≤ 2 * earthRadiusMiles * 0.00011344 := by
    norm_num [earthRadiusMiles]
  linarith

theorem distC_ge : 125 ≤ haversine dcQuery agentC.coordinate := by
  have hcos : 0 ≤ Real.cos (deg2rad dcQuery.latitude) *
      Real.cos (deg2rad agentC.coordinate.latitude) :=
    mul_nonneg
      (cos_deg2rad_nonneg _ (by norm_num [dcQuery]) (by norm_num [dcQuery]))
      (cos_deg2rad_nonneg _ (by norm_num [agentC]) (by norm_num [agentC]))
  have hh : (0.0158443:ℝ) ^ 2 ≤
      hav (deg2rad agentC.coordinate.latitude - deg2rad dcQuery.latitude) := by
    apply hav_ge_bracket _ _ 0.0158453 0.0158459 (by norm_num) (by norm_num)
      (by norm_num)
    · simp only [agentC, dcQuery, deg2rad]
      nlinarith [Real.pi_gt_d4]
    · simp only [agentC, dcQuery, deg2rad]
      nlinarith [Real.pi_lt_d4]
    · norm_num
  have hb := haversine_ge dcQuery agentC.coordinate 0.0158443 (by norm_num)
    (by norm_num) hcos hh
  have hn : (125:ℝ) ≤ 2 * earthRadiusMiles * 0.0158443 := by
    norm_num [earthRadiusMiles]
  linarith

theorem dcQuery_valid : dcQuery.valid := by
  simp only [Coordinate.valid, dcQuery]
  norm_num

theorem locateNearest_ok_iff (q : Coordinate) (d : ℝ) (reg : Registry)
    (l : List QueryResult) :
    locateNearest q d reg = Except.ok l ↔
      (q.valid ∧ 0 ≤ d) ∧ l = (retained q d reg).insertionSort distLE := by
  unfold locateNearest
  by_cases h : q.valid ∧ 0 ≤ d
  · rw [if_pos h]
    constructor
    · intro he
      injection he with he
      exact ⟨h, he.symm⟩
    · rintro ⟨-, rfl⟩
      rfl
  · rw [if_neg h]
    constructor
    · intro he
      exact Except.noConfusion he
    · rintro ⟨hc, -⟩
      exact absurd hc h

theorem retained_scenario : retained dcQuery 10 regABC =
    [toQueryResult dcQuery agentA, toQueryResult dcQuery agentB] := by
  have hA : decide ((toQueryResult dcQuery agentA).distance ≤ (10:ℝ)) = true :=
    decide_eq_true (by rw [toQueryResult_distance]; linarith [distA_le])
  have hB : decide ((toQueryResult dcQuery agentB).distance ≤ (10:ℝ)) = true :=
    decide_eq_true (by rw [toQueryResult_distance]; linarith [distB_le])
  have hC : decide ((toQueryResult dcQuery agentC).distance ≤ (10:ℝ)) = false :=
    decide_eq_false (by rw [toQueryResult_distance]; push_neg; linarith [distC_ge])
  unfold retained regABC
  simp only [List.map_cons, List.map_nil, List.filter_cons, hA, hB, hC,
    Bool.false_eq_true, if_true, if_false, List.filter_nil]

theorem scenario_AB_sorted :
    distLE (toQueryResult dcQuery agentA) (toQueryResult dcQuery agentB) := by
  unfold distLE
  rw [toQueryResult_distance, toQueryResult_distance]
  linarith [distA_le, distB_ge]

theorem sort_scenario : (retained dcQuery 10 regABC).insertionSort distLE =
    [toQueryResult dcQuery agentA, toQueryResult dcQuery agentB] := by
  rw [retained_scenario]
  exact List.Sorted.insertionSort_eq
    (by simp [List.sorted_cons, scenario_AB_sorted])

theorem locate_scenario : locateNearest dcQuery 10 regABC =
    Except.ok [toQueryResult dcQuery agentA, toQueryResult dcQuery agentB] := by
  rw [locateNearest_ok_iff]
  exact ⟨⟨dcQuery_valid, by norm_num⟩, sort_scenario.symm⟩

/-- Claim C2: for the fixed registry holding A at (38.9000, -77.0300),
B at (38.9100, -77.0400) and C at (40.7128, -74.0060), the proximity search
at query (38.8970, -77.0360) with maxDistance 10 miles returns exactly A and
B in ascending haversine-distance order, and excludes C. -/
theorem claim_C2_concrete_scenario :
    ∃ l, locateNearest dcQuery 10 regABC = Except.ok l ∧
      l.map QueryResult.id = ["A", "B"] ∧ l.Pairwise distLE := by
  refine ⟨[toQueryResult dcQuery agentA, toQueryResult dcQuery agentB],
    locate_scenario, ?_, ?_⟩
  · simp [toQueryResult, agentA, agentB]
  · simp [List.pairwise_cons, scenario_AB_sorted]

/-! ## Result-shape, ordering, filter and error claims -/

/-- Claim C1: every element of a successful result is a record exposing the
fields id, name, latitude, longitude and distance, populated from a matched
registry record and its computed haversine distance; the empty list is a
valid non-error return value. -/
theorem claim_C1_result_shape :
    (∀ (q : Coordinate) (d : ℝ) (reg : Registry) (l : List QueryResult),
      locateNearest q d reg = Except.ok l → ∀ x ∈ l, ∃ r ∈ reg.records,
        x = ⟨r.id, r.name, r.coordinate.latitude, r.coordinate.longitude,
          haversine q r.coordinate⟩) ∧
    locateNearest ⟨0, 0⟩ 0 ⟨[]⟩ = Except.ok [] := by
  constructor
  · intro q d reg l hl x hx
    rw [locateNearest_ok_iff] at hl
    obtain ⟨-, rfl⟩ := hl
    rw [List.mem_insertionSort] at hx
    unfold retained at hx
    rw [List.mem_filter] at hx
    obtain ⟨hmem, -⟩ := hx
    rw [List.mem_map] at hmem
    obtain ⟨r, hr, rfl⟩ := hmem
    exact ⟨r, hr, rfl⟩
  · rw [locateNearest_ok_iff]
    refine ⟨⟨?_, le_refl 0⟩, ?_⟩
    · simp only [Coordinate.valid]
      norm_num
    · unfold retained
      simp [List.insertionSort]

theorem claim_C1_result_shape_witness :
    ∃ r ∈ regABC.records, toQueryResult dcQuery agentA =
      (⟨r.id, r.name, r.coordinate.latitude, r.coordinate.longitude,
        haversine dcQuery r.coordinate⟩ : QueryResult) :=
  claim_C1_result_shape.1 dcQuery 10 regABC
    [toQueryResult dcQuery agentA, toQueryResult dcQuery agentB]
    locate_scenario (toQueryResult dcQuery agentA) (List.mem_cons_self _ _)

/-- Claim C3: every successful result is sorted ascending by computed
distance, and two retained entries with exactly equal distance keep the
registry's load order in the output (the sort is stable over the
order-preserving retained list). -/
theorem claim_C3_ordering_stability :
    ∀ (q : Coordinate) (d : ℝ) (reg : Registry) (l : List QueryResult),
      locateNearest q d reg = Except.ok l →
      l.Pairwise distLE ∧
        ∀ x y : QueryResult, List.Sublist [x, y] (retained q d reg) →
          x.distance = y.distance → List.Sublist [x, y] l := by
  intro q d reg l hl
  rw [locateNearest_ok_iff] at hl
  obtain ⟨-, rfl⟩ := hl
  constructor
  · exact List.sorted_insertionSort distLE (retained q d reg)
  · intro x y hsub heq
    exact List.pair_sublist_insertionSort (le_of_eq heq) hsub

/-! Fixtures with two records at the same point, for tie-break witnesses. -/

def ptP : Coordinate := ⟨10, 20⟩

def recP : AgentRecord := ⟨"p", "Agent P", ptP⟩

def recQtie : AgentRecord := ⟨"q", "Agent Q", ptP⟩

def regPQ : Registry := ⟨[recP, recQtie]⟩

theorem ptP_valid : ptP.valid := by
  simp only [Coordinate.valid, ptP]
  norm_num

theorem retained_PQ : retained ptP 1 regPQ =
    [toQueryResult ptP recP, toQueryResult ptP recQtie] := by
  have hP : decide ((toQueryResult ptP recP).distance ≤ (1:ℝ)) = true := by
    apply decide_eq_true
    rw [toQueryResult_distance]
    rw [show recP.coordinate = ptP from rfl, haversine_self]
    norm_num
  have hQ : decide ((toQueryResult ptP recQtie).distance ≤ (1:ℝ)) = true := by
    apply decide_eq_true
    rw [toQueryResult_distance]
    rw [show recQtie.coordinate = ptP from rfl, haversine_self]
    norm_num
  unfold retained regPQ
  simp only [List.map_cons, List.map_nil, List.filter_cons, hP, hQ,
    if_true, List.filter_nil]

theorem distLE_PQ : distLE (toQueryResult ptP recP) (toQueryResult ptP recQtie) :=
  le_of_eq rfl

theorem locate_PQ : locateNearest ptP 1 regPQ =
    Except.ok [toQueryResult ptP recP, toQueryResult ptP recQtie] := by
  rw [locateNearest_ok_iff]
  refine ⟨⟨ptP_valid, by norm_num⟩, ?_⟩
  rw [retained_PQ]
  exact (List.Sorted.insertionSort_eq
    (by simp [List.sorted_cons, distLE_PQ])).symm

theorem claim_C3_ordering_stability_witness :
    ([toQueryResult ptP recP, toQueryResult ptP recQtie].Pairwise distLE) ∧
      List.Sublist [toQueryResult ptP recP, toQueryResult ptP recQtie]
        [toQueryResult ptP recP, toQueryResult ptP recQtie] :=
  ⟨(claim_C3_ordering_stability ptP 1 regPQ _ locate_PQ).1,
    (claim_C3_ordering_stability ptP 1 regPQ _ locate_PQ).2
      (toQueryResult ptP recP) (toQueryResult ptP recQtie)
      (by rw [retained_PQ]) rfl⟩

/-- Claim C4: a registry record appears in a successful result iff its
computed haversine distance to the query is at most maxDistance (inclusive
bound); the modelled interface requests no result-count cap, so no in-range
record is ever omitted. -/
theorem claim_C4_radius_filter :
    ∀ (q : Coordinate) (d : ℝ) (reg : Registry) (l : List QueryResult),
      locateNearest q d reg = Except.ok l → ∀ r ∈ reg.records,
        (toQueryResult q r ∈ l ↔ haversine q r.coordinate ≤ d) := by
  intro q d reg l hl r hr
  rw [locateNearest_ok_iff] at hl
  obtain ⟨-, rfl⟩ := hl
  rw [List.mem_insertionSort]
  unfold retained
  simp only [List.mem_filter, decide_eq_true_eq, toQueryResult_distance]
  constructor
  · rintro ⟨-, h⟩
    exact h
  · intro hle
    exact ⟨List.mem_map_of_mem _ hr, hle⟩

theorem claim_C4_radius_filter_witness :
    toQueryResult dcQuery agentC ∈
      [toQueryResult dcQuery agentA, toQueryResult dcQuery agentB] ↔
      haversine dcQuery agentC.coordinate ≤ 10 :=
  claim_C4_radius_filter dcQuery 10 regABC _ locate_scenario agentC
    (List.mem_cons_of_mem _ (List.mem_cons_of_mem _ (List.mem_cons_self _ _)))

/-- Claim C5: a query with an invalid coordinate or an out-of-contract radius
fails with InvalidQueryError and never produces a result list, so an invalid
query is never rendered as an empty result. -/
theorem claim_C5_invalid_query :
    ∀ (q : Coordinate) (d : ℝ) (reg : Registry), ¬(q.valid ∧ 0 ≤ d) →
      locateNearest q d reg = Except.error QueryError.InvalidQueryError ∧
        ∀ l, locateNearest q d reg ≠ Except.ok l := by
  intro q d reg h
  have he : locateNearest q d reg = Except.error QueryError.InvalidQueryError := by
    unfold locateNearest
    rw [if_neg h]
  refine ⟨he, ?_⟩
  intro l hl
  rw [he] at hl
  exact Except.noConfusion hl

theorem claim_C5_invalid_query_witness :
    locateNearest ⟨200, 0⟩ 5 regABC = Except.error QueryError.InvalidQueryError ∧
      ∀ l, locateNearest ⟨200, 0⟩ 5 regABC ≠ Except.ok l :=
  claim_C5_invalid_query ⟨200, 0⟩ 5 regABC
    (by simp only [Coordinate.valid]; norm_num)

/-- Claim C6: registry load fails with ValidationError exactly when some
record has an invalid coordinate or two records share an id; a successfully
loaded registry keeps the input records, has only valid coordinates and no
duplicate ids. -/
theorem claim_C6_load_validation :
    ∀ rs : List AgentRecord,
      (Registry.load rs = Except.error LoadError.ValidationError ↔
        (∃ r ∈ rs, ¬r.coordinate.valid) ∨ ¬(rs.map AgentRecord.id).Nodup) ∧
      ∀ reg, Registry.load rs = Except.ok reg →
        reg.records = rs ∧ (∀ r ∈ reg.records, r.coordinate.valid) ∧
          (reg.records.map AgentRecord.id).Nodup := by
  intro rs
  unfold Registry.load
  by_cases h : (∀ r ∈ rs, r.coordinate.valid) ∧ (rs.map AgentRecord.id).Nodup
  · rw [if_pos h]
    constructor
    · constructor
      · intro he
        exact Except.noConfusion he
      · rintro (⟨r, hr, hv⟩ | hn)
        · exact absurd (h.1 r hr) hv
        · exact absurd h.2 hn
    · rintro reg hr
      injection hr with hr
      subst hr
      exact ⟨rfl, h.1, h.2⟩
  · rw [if_neg h]
    refine ⟨⟨fun _ => ?_, fun _ => rfl⟩, ?_⟩
    · rcases not_and_or.mp h with hA | hB
      · left
        push_neg at hA
        exact hA
      · right
        exact hB
    · intro reg hr
      exact Except.noConfusion hr

/-- A second record sharing the id of recP, for the duplicate-id witness. -/
def recPdup : AgentRecord := ⟨"p", "Agent P2", ⟨30, 40⟩⟩

theorem claim_C6_load_validation_witness :
    Registry.load [recP, recPdup] = Except.error LoadError.ValidationError :=
  (claim_C6_load_validation [recP, recPdup]).1.mpr
    (Or.inr (by simp [recP, recPdup]))

/-- Claim C7: the proximity search is a deterministic pure function of its
inputs: equal query, radius and registry give identical ordered output. -/
theorem claim_C7_determinism :
    ∀ (q1 q2 : Coordinate) (d1 d2 : ℝ) (r1 r2 : Registry),
      q1 = q2 → d1 = d2 → r1 = r2 →
      locateNearest q1 d1 r1 = locateNearest q2 d2 r2 := by
  intro q1 q2 d1 d2 r1 r2 hq hd hr
  rw [hq, hd, hr]

theorem claim_C7_determinism_witness :
    locateNearest dcQuery 10 regABC = locateNearest dcQuery 10 regABC :=
  claim_C7_determinism dcQuery dcQuery 10 10 regABC regABC rfl rfl rfl

/-! ## Zero-radius behaviour -/

/-- Query on the antimeridian, longitude written as -180. -/
def antipodeQuery : Coordinate := ⟨40, -180⟩

/-- Record at the same physical point, longitude written as 180. -/
def agentMeridian : AgentRecord := ⟨"m", "Antimeridian Agent", ⟨40, 180⟩⟩

theorem haversine_antimeridian :
    haversine antipodeQuery agentMeridian.coordinate = 0 := by
  have h1 : deg2rad agentMeridian.coordinate.latitude -
      deg2rad antipodeQuery.latitude = 0 := by
    simp only [agentMeridian, antipodeQuery, deg2rad]
    ring
  have h2 : (deg2rad agentMeridian.coordinate.longitude -
      deg2rad antipodeQuery.longitude) / 2 = Real.pi := by
    simp only [agentMeridian, antipodeQuery, deg2rad]
    ring
  unfold haversine hav
  rw [h1, h2]
  simp

/-- Claim C8 counterexample: the query (40, -180) is valid and coincides with
no registry coordinate, yet with maxDistance = 0 the search over a registry
holding one agent at (40, 180) returns that agent (a non-empty list), because
the two distinct coordinate pairs are at haversine distance 0. -/
theorem claim_C8_zero_radius_counterexample :
    antipodeQuery.valid ∧
      (∀ r ∈ ([agentMeridian] : List AgentRecord),
        r.coordinate ≠ antipodeQuery) ∧
      locateNearest antipodeQuery 0 ⟨[agentMeridian]⟩ =
        Except.ok [toQueryResult antipodeQuery agentMeridian] := by
  have hvalid : antipodeQuery.valid := by
    simp only [Coordinate.valid, antipodeQuery]
    norm_num
  refine ⟨hvalid, ?_, ?_⟩
  · intro r hr
    rw [List.mem_singleton] at hr
    subst hr
    simp only [agentMeridian, antipodeQuery]
    intro h
    injection h with h1 h2
    norm_num at h2
  · rw [locateNearest_ok_iff]
    refine ⟨⟨hvalid, le_refl 0⟩, ?_⟩
    have hdec :
        decide ((toQueryResult antipodeQuery agentMeridian).distance ≤ (0:ℝ)) =
          true := by
      apply decide_eq_true
      rw [toQueryResult_distance, haversine_antimeridian]
    unfold retained
    simp only [List.map_cons, List.map_nil, List.filter_cons, hdec, if_true,
      List.filter_nil]
    exact (List.Sorted.insertionSort_eq (List.sorted_singleton _)).symm

/-- Claim C8 (amended): a zero-radius query with a valid coordinate never
raises an error; the result contains exactly the records at haversine
distance 0 from the query, hence is empty whenever every record is at
positive haversine distance (distinct coordinate pairs can still be at
distance 0 when they alias the same physical point, e.g. across the
antimeridian). -/
theorem claim_C8_zero_radius_amended :
    ∀ (q : Coordinate) (reg : Registry), q.valid →
      ∃ l, locateNearest q 0 reg = Except.ok l ∧
        (∀ r ∈ reg.records,
          (toQueryResult q r ∈ l ↔ haversine q r.coordinate = 0)) ∧
        ((∀ r ∈ reg.records, haversine q r.coordinate ≠ 0) → l = []) := by
  intro q reg hq
  refine ⟨(retained q 0 reg).insertionSort distLE, ?_, ?_, ?_⟩
  · rw [locateNearest_ok_iff]
    exact ⟨⟨hq, le_refl 0⟩, rfl⟩
  · intro r hr
    rw [List.mem_insertionSort]
    unfold retained
    simp only [List.mem_filter, decide_eq_true_eq, toQueryResult_distance]
    constructor
    · rintro ⟨-, hle⟩
      exact le_antisymm hle (haversine_nonneg _ _)
    · intro h0
      exact ⟨List.mem_map_of_mem _ hr, le_of_eq h0⟩
  · intro hall
    have hnil : retained q 0 reg = [] := by
      rw [List.eq_nil_iff_forall_not_mem]
      intro x hx
      unfold retained at hx
      rw [List.mem_filter] at hx
      obtain ⟨hmem, hdec⟩ := hx
      rw [List.mem_map] at hmem
      obtain ⟨r, hr, rfl⟩ := hmem
      have hle := of_decide_eq_true hdec
      rw [toQueryResult_distance] at hle
      exact hall r hr (le_antisymm hle (haversine_nonneg _ _))
    rw [hnil]
    simp [List.insertionSort]

theorem claim_C8_zero_radius_amended_witness :
    ∃ l, locateNearest ptP 0 regPQ = Except.ok l ∧
      (∀ r ∈ regPQ.records,
        (toQueryResult ptP r ∈ l ↔ haversine ptP r.coordinate = 0)) ∧
      ((∀ r ∈ regPQ.records, haversine ptP r.coordinate ≠ 0) → l = []) :=
  claim_C8_zero_radius_amended ptP regPQ ptP_valid

/-! ## Caller-side control flow embedded from main_app.py -/

/-- A Streamlit UI event emitted by the systems-check page. -/
inductive UIEvent where
  | uiMarkdown (s : String)
  | uiSuccess (s : String)
  | uiInfo (s : String)
  | uiWarning (s : String)
  | uiError (s : String)
  | uiException (e : String)
  | uiMap
  | uiDataframe
deriving DecidableEq

/-- The nested coordinates object the caller reads at main_app.py line 87. -/
structure NPSCoordinates where
  lat : ℝ
  lng : ℝ

/-- The row shape the caller reads from each locator result at main_app.py
line 87: name, coordinates.lat, coordinates.lng and distance_miles. -/
structure NPSRow where
  name : String
  coordinates : NPSCoordinates
  distance_miles : ℝ

/-- Embedded from main_app.py lines 80-93: the rendering after a successful
locator call, either the populated map panel or the no-agents warning. -/
def render_nps_results (results : List NPSRow) : List UIEvent :=
  UIEvent.uiSuccess "NPS Geospatial Locator Test Successful (Internal Routing)" ::
    UIEvent.uiMarkdown "Search Area: Near Washington D.C." ::
      (if results.isEmpty then
        [UIEvent.uiWarning "No subscribed Notary Public Agents found in range."]
      else
        [UIEvent.uiInfo "Found certified Notary Public Agents, sorted by distance.",
          UIEvent.uiMap, UIEvent.uiDataframe])

/-- Python try/except semantics: an exception escaping the body is caught and
replaced by the handler's rendering; it does not propagate further. -/
def tryExcept (body : Except String (List UIEvent))
    (handler : String → List UIEvent) : Except String (List UIEvent) :=
  match body with
  | Except.ok evs => Except.ok evs
  | Except.error e => Except.ok (handler e)

/-- Embedded from main_app.py lines 74-93: the try-block body; an exception
raised by constructing NPSGeospatialLocator or by locate_nearest_nps surfaces
as the error of the locator outcome. -/
def nps_test_body (locator_outcome : Except String (List NPSRow)) :
    Except String (List UIEvent) :=
  match locator_outcome with
  | Except.ok results => Except.ok (render_nps_results results)
  | Except.error e => Except.error e

/-- Embedded from main_app.py lines 72-97 (run_nps_locator_test): the header
markdown precedes the try; the except-branch renders the exception and an
error banner instead of re-raising it. -/
def run_nps_locator_test (locator_outcome : Except String (List NPSRow)) :
    Except String (List UIEvent) :=
  match tryExcept (nps_test_body locator_outcome)
      (fun e => [UIEvent.uiException e,
        UIEvent.uiError "Error running NPS Map Test."]) with
  | Except.ok evs =>
      Except.ok (UIEvent.uiMarkdown "3. Notary Public Service (NPS) Map" :: evs)
  | Except.error e => Except.error e

/-- Claim C9: run_nps_locator_test returns normally for every outcome of the
locator call; an exception from the locator is caught inside the function and
rendered, never propagated to main_app_router. -/
theorem claim_C9_locator_errors_caught :
    ∀ locator_outcome : Except String (List NPSRow),
      ∃ evs, run_nps_locator_test locator_outcome = Except.ok evs := by
  intro outcome
  cases outcome with
  | ok results => exact ⟨_, rfl⟩
  | error e => exact ⟨_, rfl⟩

/-- The Streamlit session state relevant to gating: the run_check flag,
absent on a fresh session. -/
structure SessionState where
  run_check : Option Bool

/-- The systems-check calls the router can make. -/
inductive SystemsCheck where
  | spiritualLaw
  | urbanSlang
  | userNotebook
  | npsLocator
deriving DecidableEq

/-- Embedded from main_app.py lines 114-129: the checks that run when the
gate at line 114 reads a truthy run_check, in execution order. -/
def checks_executed (flag : Bool) : List SystemsCheck :=
  if flag then
    [SystemsCheck.spiritualLaw, SystemsCheck.urbanSlang,
      SystemsCheck.userNotebook, SystemsCheck.npsLocator]
  else
    []

/-- Embedded from main_app.py lines 101-133 (main_app_router): the interface
renderer (an external module that may mutate the session state, e.g. via its
button) runs first; the gate then reads the current run_check flag with
default False, exactly as st.session_state.get does at line 114. -/
def main_app_router (render_interface : SessionState → SessionState)
    (s : SessionState) : SessionState × List SystemsCheck :=
  let s2 := render_interface s
  (s2, checks_executed (s2.run_check.getD false))

/-- Embedded from main_app.py lines 137-138: a fresh session initializes
run_check to False before the router runs. -/
def init_session (s : SessionState) : SessionState :=
  if s.run_check = none then ⟨some false⟩ else s

/-- Embedded from main_app.py lines 136-139: the __main__ guard initializes
the flag, then runs the router. -/
def main_entry (render_interface : SessionState → SessionState)
    (s : SessionState) : SessionState × List SystemsCheck :=
  main_app_router render_interface (init_session s)

/-- Claim C10: the locator check (like every systems check) is executed iff
the run_check flag read at the gate is truthy, so no locator call occurs
while run_check is False; and on a fresh session the flag is initialized to
False before the router runs. -/
theorem claim_C10_run_check_gate :
    ∀ (render_interface : SessionState → SessionState) (s : SessionState),
      (SystemsCheck.npsLocator ∈ (main_app_router render_interface s).snd ↔
        (render_interface s).run_check.getD false = true) ∧
      (s.run_check = none → (init_session s).run_check = some false) := by
  intro render s
  constructor
  · simp only [main_app_router]
    cases hflag : (render s).run_check.getD false
    · simp [checks_executed, hflag]
    · simp [checks_executed, hflag]
  · intro hnone
    unfold init_session
    rw [if_pos hnone]

theorem claim_C10_run_check_gate_witness :
    SystemsCheck.npsLocator ∈
      (main_app_router (fun _ => ⟨some true⟩) ⟨none⟩).snd ∧
      (init_session ⟨none⟩).run_check = some false :=
  ⟨(claim_C10_run_check_gate (fun _ => ⟨some true⟩) ⟨none⟩).1.mpr rfl,
    (claim_C10_run_check_gate (fun _ => ⟨some true⟩) ⟨none⟩).2 rfl⟩

end
